import Mathlib

/-!
Verification development for the ECDH-ES JWE key-management module
(`src/jwe/alg/ecdh_es.rs`).  The Rust functions are shallowly embedded as
executable Lean definitions.  Cryptographic primitives (curve arithmetic,
SHA-256, AES Key Wrap) live outside the module and are abstracted as an
injected `Backend` of opaque operations, following the module's own
interface to openssl; everything the module itself computes (control flow,
validation, the Concat KDF loop, buffer handling) is translated directly
from the source.
-/

/-- Byte strings are lists of naturals (each intended to be < 256). -/
abbrev Bytes := List Nat

/-- A JSON-like value as seen through serde_json's `Value`: the module only
distinguishes strings, objects, arrays and everything else. -/
inductive JsonValue where
  | str : String → JsonValue
  | obj : List (String × JsonValue) → JsonValue
  | arr : List JsonValue → JsonValue
  | other : JsonValue

/-- Lookup in a serde_json object map by key. -/
def jsonLookup (m : List (String × JsonValue)) (k : String) : Option JsonValue :=
  match m.find? (fun p => p.1 == k) with
  | some p => some p.2
  | none => none

/-- The two error categories the module surfaces (`JoseError` variants used
by `ecdh_es.rs`). -/
inductive JoseError where
  | InvalidKeyFormat : String → JoseError
  | InvalidJweFormat : String → JoseError

/-- Result of a Rust function that may also panic (`unreachable!()`). -/
inductive RResult (α : Type) where
  | ok : α → RResult α
  | error : JoseError → RResult α
  | crash : RResult α

/-- Named elliptic curves supported by the module (`EcCurve`, jwk module). -/
inductive EcCurve where
  | P256 | P384 | P521 | Secp256K1
deriving DecidableEq

/-- Curve name string of a named curve. -/
def EcCurve.name : EcCurve → String
  | .P256 => "P-256"
  | .P384 => "P-384"
  | .P521 => "P-521"
  | .Secp256K1 => "secp256k1"

/-- Montgomery curves supported by the module (`XCurve`, jwk module). -/
inductive XCurve where
  | X25519 | X448
deriving DecidableEq

/-- Curve name string of a Montgomery curve. -/
def XCurve.name : XCurve → String
  | .X25519 => "X25519"
  | .X448 => "X448"

/-- `EcdhEsKeyType`: the two key families (lines 18-38 of the source). -/
inductive EcdhEsKeyType where
  | Ec : EcCurve → EcdhEsKeyType
  | X : XCurve → EcdhEsKeyType
deriving DecidableEq

/-- `EcdhEsKeyType::key_type`. -/
def EcdhEsKeyType.key_type : EcdhEsKeyType → String
  | .Ec _ => "EC"
  | .X _ => "OKP"

/-- `EcdhEsKeyType::curve_name`. -/
def EcdhEsKeyType.curve_name : EcdhEsKeyType → String
  | .Ec c => c.name
  | .X c => c.name

/-- The four algorithm variants (`EcdhEsJweAlgorithm`). -/
inductive EcdhEsJweAlgorithm where
  | EcdhEs | EcdhEsA128Kw | EcdhEsA192Kw | EcdhEsA256Kw
deriving DecidableEq

/-- `EcdhEsJweAlgorithm::name` (lines 233-240). -/
def EcdhEsJweAlgorithm.name : EcdhEsJweAlgorithm → String
  | .EcdhEs => "ECDH-ES"
  | .EcdhEsA128Kw => "ECDH-ES+A128KW"
  | .EcdhEsA192Kw => "ECDH-ES+A192KW"
  | .EcdhEsA256Kw => "ECDH-ES+A256KW"

/-- `EcdhEsJweAlgorithm::is_direct` (lines 224-229). -/
def EcdhEsJweAlgorithm.is_direct : EcdhEsJweAlgorithm → Bool
  | .EcdhEs => true
  | _ => false

/-- Modelled from the spec: the JWE header collaborator (jose module, not in
src/) exposes get/set of claims by name.  A header is its claim map. -/
structure JweHeader where
  claims : List (String × JsonValue)

/-- Modelled from the spec: `JweHeader::claim`, lookup of a claim by name. -/
def JweHeader.claim (h : JweHeader) (name : String) : Option JsonValue :=
  match h.claims.find? (fun p => p.1 == name) with
  | some p => some p.2
  | none => none

/-- Modelled from the spec: `JweHeader::set_claim`, overwriting any prior
value of the claim. -/
def JweHeader.set_claim (h : JweHeader) (name : String) (v : JsonValue) : JweHeader :=
  ⟨(name, v) :: h.claims.filter (fun p => p.1 != name)⟩

/-- Modelled from the spec: the canonical algorithm-name setter writes the
"alg" claim. -/
def JweHeader.set_algorithm (h : JweHeader) (name : String) : JweHeader :=
  h.set_claim "alg" (JsonValue.str name)

/-- Modelled from the spec: the canonical content-encryption accessor reads
the "enc" claim as a string. -/
def JweHeader.content_encryption (h : JweHeader) : Option String :=
  match h.claim "enc" with
  | some (.str s) => some s
  | _ => none

/-- Modelled from the spec: the key-representation collaborator (`Jwk`, jwk
module, not in src/) is a map of named parameters. -/
structure Jwk where
  params : List (String × JsonValue)

/-- Modelled from the spec: `Jwk::parameter`, named-parameter lookup. -/
def Jwk.parameter (j : Jwk) (name : String) : Option JsonValue :=
  jsonLookup j.params name

/-- Modelled from the spec: `Jwk::key_type` returns the "kty" string (a Jwk
always carries one; a missing or non-string value is read as empty here). -/
def Jwk.key_type (j : Jwk) : String :=
  match j.parameter "kty" with
  | some (.str s) => s
  | _ => ""

/-- Modelled from the spec: `Jwk::key_use` returns the optional "use"
string. -/
def Jwk.key_use (j : Jwk) : Option String :=
  match j.parameter "use" with
  | some (.str s) => some s
  | _ => none

/-- Modelled from the spec: `Jwk::algorithm` returns the optional "alg"
string. -/
def Jwk.algorithm (j : Jwk) : Option String :=
  match j.parameter "alg" with
  | some (.str s) => some s
  | _ => none

/-- Modelled from the spec: `Jwk::key_id` returns the optional "kid"
string. -/
def Jwk.key_id (j : Jwk) : Option String :=
  match j.parameter "kid" with
  | some (.str s) => some s
  | _ => none

/-- Modelled from the spec: `Jwk::is_for_key_operation`, the membership test
on the key's declared operations ("key_ops").  An absent "key_ops" list
declares no restriction; a present list must contain the operation. -/
def Jwk.is_for_key_operation (j : Jwk) (op : String) : Bool :=
  match j.parameter "key_ops" with
  | some (.arr vs) => vs.any (fun v => match v with | .str s => s == op | _ => false)
  | none => true
  | some _ => false

/-- Base64url alphabet value of one character (base64 crate,
`URL_SAFE_NO_PAD`). -/
def b64Val (c : Char) : Option Nat :=
  if 65 ≤ c.toNat ∧ c.toNat ≤ 90 then some (c.toNat - 65)
  else if 97 ≤ c.toNat ∧ c.toNat ≤ 122 then some (c.toNat - 97 + 26)
  else if 48 ≤ c.toNat ∧ c.toNat ≤ 57 then some (c.toNat - 48 + 52)
  else if c = '-' then some 62
  else if c = '_' then some 63
  else none

/-- Bit-accumulating base64 decoding loop: 6 bits per character, emitting a
byte whenever 8 bits are available. -/
def b64Decode : List Char → Nat → Nat → Bytes → Option Bytes
  | [], _, _, out => some out
  | c :: cs, acc, bits, out =>
    match b64Val c with
    | none => none
    | some v =>
      let acc2 := acc * 64 + v
      let bits2 := bits + 6
      if bits2 ≥ 8 then
        b64Decode cs (acc2 % 2 ^ (bits2 - 8)) (bits2 - 8) (out ++ [acc2 / 2 ^ (bits2 - 8)])
      else
        b64Decode cs acc2 bits2 out

/-- `base64::decode_config(_, base64::URL_SAFE_NO_PAD)`: unpadded base64url
decoding; a length of 1 mod 4 is invalid. -/
def base64UrlDecode (s : String) : Option Bytes :=
  if s.length % 4 = 1 then none else b64Decode s.data 0 0 []

/-- Big-endian 4-byte encoding of a `u32` value (`(n as u32).to_be_bytes()`;
the `% 256` projections realize the `as u32` truncation). -/
def be32 (n : Nat) : Bytes :=
  [n / 2 ^ 24 % 256, n / 2 ^ 16 % 256, n / 2 ^ 8 % 256, n % 256]

/-- UTF-8 bytes of a string (`str::as_bytes`); all strings fed to the KDF by
this module are ASCII, where code points and bytes coincide. -/
def strBytes (s : String) : Bytes :=
  s.data.map Char.toNat

/-- Modelled from the spec: `util::ceiling` (util module, not in src/), the
ceiling-division used as the KDF loop bound. -/
def ceiling (len d : Nat) : Nat :=
  (len + d - 1) / d

/-- The cryptographic backend consumed by the module (openssl plus the
der/jwk encoding helpers, all outside src/), abstracted per spec section 6:
hashing, ephemeral generation (returning the jwk-encoded public coordinates
and an opaque private handle), key loading from encoded coordinates, ECDH
agreement, and the raw AES-Key-Wrap permutation.  Key handles are opaque
naturals. -/
structure Backend where
  hash : Bytes → Bytes
  genEc : EcCurve → Except String (String × String × Nat)
  genX : XCurve → Except String (String × Nat)
  loadEcPub : EcCurve → Bytes → Except String Nat
  loadXPub : XCurve → Bytes → Except String Nat
  loadEcPriv : EcCurve → Bytes → Except String Nat
  loadXPriv : XCurve → Bytes → Except String Nat
  agree : Nat → Nat → Except String Bytes
  wrapRaw : Bytes → Bytes → Bytes
  unwrapRaw : Bytes → Bytes → Option Bytes

/-- One round of the Concat KDF:
`SHA256(BE32(i) || Z || enc || [apu] || [apv] || BE32(key_len))`
(the `hasher.update` sequence of lines 376-388 / 590-602). -/
def kdfRound (hash : Bytes → Bytes) (Z : Bytes) (enc : String)
    (apu apv : Option Bytes) (key_len i : Nat) : Bytes :=
  hash (be32 i ++ Z ++ strBytes enc ++ apu.getD [] ++ apv.getD [] ++ be32 key_len)

/-- The digest accumulator built by the loop
`for i in 1..util::ceiling(key_len, md.size())` (lines 374-390 / 588-604);
the half-open Rust range runs `ceiling key_len 32 - 1` rounds. -/
def concatKdfRaw (hash : Bytes → Bytes) (Z : Bytes) (enc : String)
    (apu apv : Option Bytes) (key_len : Nat) : Bytes :=
  (List.range' 1 (ceiling key_len 32 - 1)).foldl
    (fun acc i => acc ++ kdfRound hash Z enc apu apv key_len i) []

/-- The Concat KDF as implemented: accumulator then
`if key.len() != key_len { key.truncate(key_len) }` (lines 391-393 /
605-607); `Vec::truncate` never lengthens, matching `List.take`. -/
def concatKdf (hash : Bytes → Bytes) (Z : Bytes) (enc : String)
    (apu apv : Option Bytes) (key_len : Nat) : Bytes :=
  if (concatKdfRaw hash Z enc apu apv key_len).length ≠ key_len then
    (concatKdfRaw hash Z enc apu apv key_len).take key_len
  else
    concatKdfRaw hash Z enc apu apv key_len

/-- The recipient-facing encrypter (`EcdhEsJweEncrypter`, lines 261-267). -/
structure Encrypter where
  algorithm : EcdhEsJweAlgorithm
  key_type : EcdhEsKeyType
  public_key : Nat
  key_id : Option String

/-- The key-holder-facing decrypter (`EcdhEsJweDecrypter`, lines 435-441). -/
structure Decrypter where
  algorithm : EcdhEsJweAlgorithm
  key_type : EcdhEsKeyType
  private_key : Nat
  key_id : Option String

/-- `EcdhEsJweEncrypter::set_key_id` (lines 270-279). -/
def Encrypter.set_key_id (e : Encrypter) (key_id : Option String) : Encrypter :=
  match key_id with
  | some v => { e with key_id := some v }
  | none => { e with key_id := none }

/-- `EcdhEsJweDecrypter::set_key_id` (lines 444-453). -/
def Decrypter.set_key_id (d : Decrypter) (key_id : Option String) : Decrypter :=
  match key_id with
  | some v => { d with key_id := some v }
  | none => { d with key_id := none }

/-- Checks 1-4 shared verbatim by `encrypter_from_jwk` (lines 55-71) and
`decrypter_from_jwk` (lines 141-157): kty, use, key_ops, alg, in source
order and with the source's messages. -/
def jwkCommonChecks (alg : EcdhEsJweAlgorithm) (jwk : Jwk) : Except String Unit :=
  if jwk.key_type = "EC" ∨ jwk.key_type = "OKP" then
    match jwk.key_use with
    | some u =>
      if u = "enc" then jwkOpsAlgChecks alg jwk
      else .error ("A parameter use must be enc: " ++ u)
    | none => jwkOpsAlgChecks alg jwk
  else .error ("A parameter kty must be EC or OKP: " ++ jwk.key_type)
where
  jwkOpsAlgChecks (alg : EcdhEsJweAlgorithm) (jwk : Jwk) : Except String Unit :=
    if jwk.is_for_key_operation "deriveKey" then
      match jwk.algorithm with
      | some a =>
        if a = alg.name then .ok ()
        else .error ("A parameter alg must be " ++ alg.name ++ " but " ++ a)
      | none => .ok ()
    else .error "A parameter key_ops must contains deriveKey."

/-- Curve resolution for "EC" keys (lines 75-81 / 161-167). -/
def ecCurveOfName (s : String) : Option EcCurve :=
  if s = "P-256" then some .P256
  else if s = "P-384" then some .P384
  else if s = "P-521" then some .P521
  else if s = "secp256k1" then some .Secp256K1
  else none

/-- Curve resolution for "OKP" keys (lines 106-110 / 188-192). -/
def xCurveOfName (s : String) : Option XCurve :=
  if s = "X25519" then some .X25519
  else if s = "X448" then some .X448
  else none

/-- Reading and base64url-decoding a string Jwk parameter, with the source's
messages (e.g. lines 82-93). -/
def jwkB64Param (jwk : Jwk) (name : String) : Except String Bytes :=
  match jwk.parameter name with
  | some (.str s) =>
    match base64UrlDecode s with
    | some b => .ok b
    | none => .error "base64 decode error"
  | some _ => .error ("A parameter " ++ name ++ " must be a string.")
  | none => .error ("A parameter " ++ name ++ " is required.")

/-- Body of `EcdhEsJweAlgorithm::encrypter_from_jwk` (lines 53-135).  The
public-key construction (`EcKeyPair::to_pkcs8` on the uncompressed point
`0x04 || x || y`, then `PKey::public_key_from_der`) is delegated to the
backend load on the point bytes, as those helpers live outside src/. -/
def encrypterFromJwkInner (B : Backend) (alg : EcdhEsJweAlgorithm) (jwk : Jwk) :
    Except String Encrypter :=
  match jwkCommonChecks alg jwk with
  | .error e => .error e
  | .ok _ =>
    match jwk.parameter "crv" with
    | some (.str crv) =>
      -- the `_ => unreachable!()` arm is excluded by the earlier kty check
      if jwk.key_type = "EC" then
        match ecCurveOfName crv with
        | some curve =>
          match jwkB64Param jwk "x" with
          | .error e => .error e
          | .ok x =>
            match jwkB64Param jwk "y" with
            | .error e => .error e
            | .ok y =>
              match B.loadEcPub curve (4 :: (x ++ y)) with
              | .error e => .error e
              | .ok pk =>
                .ok { algorithm := alg, key_type := EcdhEsKeyType.Ec curve,
                      public_key := pk, key_id := jwk.key_id }
        | none => .error ("EC key doesn't support the curve algorithm: " ++ crv)
      else
        match xCurveOfName crv with
        | some curve =>
          match jwkB64Param jwk "x" with
          | .error e => .error e
          | .ok x =>
            match B.loadXPub curve x with
            | .error e => .error e
            | .ok pk =>
              .ok { algorithm := alg, key_type := EcdhEsKeyType.X curve,
                    public_key := pk, key_id := jwk.key_id }
        | none => .error ("OKP key doesn't support the curve algorithm: " ++ crv)
    | some _ => .error "A parameter crv must be a string."
    | none => .error "A parameter crv is required."

/-- `encrypter_from_jwk` wraps every failure of its closure in
`JoseError::InvalidKeyFormat` (line 136). -/
def encrypter_from_jwk (B : Backend) (alg : EcdhEsJweAlgorithm) (jwk : Jwk) :
    Except JoseError Encrypter :=
  match encrypterFromJwkInner B alg jwk with
  | .ok v => .ok v
  | .error e => .error (.InvalidKeyFormat e)

/-- Body of `EcdhEsJweAlgorithm::decrypter_from_jwk` (lines 139-220).  The
private-key construction (DER scalar structure, `to_pkcs8`,
`PKey::private_key_from_der`) is delegated to the backend load on the raw
scalar, as those helpers live outside src/. -/
def decrypterFromJwkInner (B : Backend) (alg : EcdhEsJweAlgorithm) (jwk : Jwk) :
    Except String Decrypter :=
  match jwkCommonChecks alg jwk with
  | .error e => .error e
  | .ok _ =>
    match jwk.parameter "crv" with
    | some (.str crv) =>
      if jwk.key_type = "EC" then
        match ecCurveOfName crv with
        | some curve =>
          match jwkB64Param jwk "d" with
          | .error e => .error e
          | .ok d =>
            match B.loadEcPriv curve d with
            | .error e => .error e
            | .ok sk =>
              .ok { algorithm := alg, key_type := EcdhEsKeyType.Ec curve,
                    private_key := sk, key_id := jwk.key_id }
        | none => .error ("EC key doesn't support the curve algorithm: " ++ crv)
      else
        match xCurveOfName crv with
        | some curve =>
          match jwkB64Param jwk "d" with
          | .error e => .error e
          | .ok d =>
            match B.loadXPriv curve d with
            | .error e => .error e
            | .ok sk =>
              .ok { algorithm := alg, key_type := EcdhEsKeyType.X curve,
                    private_key := sk, key_id := jwk.key_id }
        | none => .error ("OKP key doesn't support the curve algorithm: " ++ crv)
    | some _ => .error "A parameter crv must be a string."
    | none => .error "A parameter crv is required."

/-- `decrypter_from_jwk` wraps every failure of its closure in
`JoseError::InvalidKeyFormat` (line 221). -/
def decrypter_from_jwk (B : Backend) (alg : EcdhEsJweAlgorithm) (jwk : Jwk) :
    Except JoseError Decrypter :=
  match decrypterFromJwkInner B alg jwk with
  | .ok v => .ok v
  | .error e => .error (.InvalidKeyFormat e)

/-- Reading and base64url-decoding an optional string header claim ("apu" /
"apv", lines 300-315 and 488-503); `msg` is the non-string message. -/
def getHeaderB64 (h : JweHeader) (name msg : String) : Except String (Option Bytes) :=
  match h.claim name with
  | some (.str s) =>
    match base64UrlDecode s with
    | some b => .ok (some b)
    | none => .error "base64 decode error"
  | some _ => .error msg
  | none => .ok none

/-- Ephemeral key generation and "epk" object construction (lines 319-359):
the map receives kty and crv from the encrypter's key type, then the
generated public coordinates, and the private half is kept for agreement. -/
def genEphemeral (B : Backend) (kt : EcdhEsKeyType) :
    Except String (List (String × JsonValue) × Nat) :=
  match kt with
  | .Ec c =>
    match B.genEc c with
    | .error e => .error e
    | .ok (x, y, sk) =>
      .ok ([("kty", JsonValue.str "EC"), ("crv", JsonValue.str c.name),
            ("x", JsonValue.str x), ("y", JsonValue.str y)], sk)
  | .X c =>
    match B.genX c with
    | .error e => .error e
    | .ok (x, sk) =>
      .ok ([("kty", JsonValue.str "OKP"), ("crv", JsonValue.str c.name),
            ("x", JsonValue.str x)], sk)

/-- `AesKey::new_encrypt` plus `aes::wrap_key` on a `key_len + 8` buffer
(lines 395-412): the AES key must be 16, 24 or 32 bytes; the rust-openssl
binding rejects a too-small output buffer; openssl rejects a payload that is
shorter than two 64-bit blocks or not block-aligned; on success the buffer
is truncated to the written `payload + 8` bytes, i.e. the raw wrap. -/
def aesKwWrap (B : Backend) (kek payload : Bytes) (bufLen : Nat) : Except String Bytes :=
  if kek.length = 16 ∨ kek.length = 24 ∨ kek.length = 32 then
    if bufLen < payload.length + 8 then .error "KeyError"
    else if payload.length < 16 ∨ payload.length % 8 ≠ 0 then .error "KeyError"
    else .ok (B.wrapRaw kek payload)
  else .error "KeyError"

/-- `AesKey::new_encrypt` plus `aes::unwrap_key` on a `key_len + 8` buffer
(lines 615-627), with the integrity check of RFC 3394 reflected in the
optional result of the raw unwrap. -/
def aesKwUnwrap (B : Backend) (kek ek : Bytes) (bufLen : Nat) : Except String Bytes :=
  if kek.length = 16 ∨ kek.length = 24 ∨ kek.length = 32 then
    if bufLen + 8 < ek.length then .error "KeyError"
    else if ek.length < 24 ∨ ek.length % 8 ≠ 0 then .error "KeyError"
    else
      match B.unwrapRaw kek ek with
      | some v => .ok (v.take (ek.length - 8))
      | none => .error "KeyError"
  else .error "KeyError"

/-- `EcdhEsJweEncrypter::encrypt` (lines 294-420).  The header is returned
alongside the result to reflect its in-place mutation; every closure error
is wrapped in `JoseError::InvalidKeyFormat` (lines 416-419) and the
`unreachable!()` on a missing "enc" claim (line 369) is a crash. -/
def encrypt (B : Backend) (e : Encrypter) (header : JweHeader) (key_len : Nat) :
    RResult (JweHeader × Bytes × Option Bytes) :=
  match getHeaderB64 header "apu" "The apu header claim must be string." with
  | .error msg => .error (.InvalidKeyFormat msg)
  | .ok apu =>
  match getHeaderB64 header "apv" "The apv header claim must be string." with
  | .error msg => .error (.InvalidKeyFormat msg)
  | .ok apv =>
  let header1 := header.set_algorithm e.algorithm.name
  match genEphemeral B e.key_type with
  | .error msg => .error (.InvalidKeyFormat msg)
  | .ok (epkMap, ephPriv) =>
  let header2 := header1.set_claim "epk" (JsonValue.obj epkMap)
  match B.agree ephPriv e.public_key with
  | .error msg => .error (.InvalidKeyFormat msg)
  | .ok derived_key =>
  match header2.content_encryption with
  | none => .crash
  | some enc =>
  let key := concatKdf B.hash derived_key enc apu apv key_len
  if e.algorithm ≠ EcdhEsJweAlgorithm.EcdhEs then
    match aesKwWrap B derived_key key (key_len + 8) with
    | .error msg => .error (.InvalidKeyFormat msg)
    | .ok w => .ok (header2, key, some w)
  else
    .ok (header2, key, none)

/-- The wrapped-key presence check opening `decrypt` (lines 475-486). -/
def checkPresence (alg : EcdhEsJweAlgorithm) (encrypted_key : Option Bytes) :
    Except String Unit :=
  match encrypted_key with
  | some _ =>
    if alg.is_direct then .error "The encrypted_key must not exist." else .ok ()
  | none =>
    if alg.is_direct then .ok () else .error "A encrypted_key is required."

/-- Validation of the "epk" header claim and construction of the peer public
key (lines 505-575), message for message; in particular the messages for a
missing or non-string "y" name the x parameter, exactly as in the source
(lines 538-546). -/
def validateEpk (B : Backend) (kt : EcdhEsKeyType) (h : JweHeader) : Except String Nat :=
  match h.claim "epk" with
  | some (.obj m) =>
    match jsonLookup m "kty" with
    | some (.str v) =>
      if v = kt.key_type then
        match jsonLookup m "crv" with
        | some (.str w) =>
          if w = kt.curve_name then
            match kt with
            | .Ec curve =>
              match jsonLookup m "x" with
              | some (.str sx) =>
                match base64UrlDecode sx with
                | some x =>
                  match jsonLookup m "y" with
                  | some (.str sy) =>
                    match base64UrlDecode sy with
                    | some y => B.loadEcPub curve (4 :: (x ++ y))
                    | none => .error "base64 decode error"
                  | some _ => .error "The x parameter in epk header claim must be a string."
                  | none => .error "The x parameter in epk header claim is required."
                | none => .error "base64 decode error"
              | some _ => .error "The x parameter in epk header claim must be a string."
              | none => .error "The x parameter in epk header claim is required."
            | .X curve =>
              match jsonLookup m "x" with
              | some (.str sx) =>
                match base64UrlDecode sx with
                | some x => B.loadXPub curve x
                | none => .error "base64 decode error"
              | some _ => .error "The x parameter in epk header claim must be a string."
              | none => .error "The x parameter in epk header claim is required."
          else .error ("The crv parameter in epk header claim is invalid: " ++ w)
        | some _ => .error "The crv parameter in epk header claim must be a string."
        | none => .error "The crv parameter in epk header claim is required."
      else .error ("The kty parameter in epk header claim is invalid: " ++ v)
    | some _ => .error "The kty parameter in epk header claim must be a string."
    | none => .error "The kty parameter in epk header claim is required."
  | some _ => .error "The epk header claim must be object."
  | none => .error "This algorithm must have epk header claim."

/-- `EcdhEsJweDecrypter::decrypt` (lines 468-637).  Every closure error is
wrapped in `JoseError::InvalidJweFormat` (line 636); the two
`unreachable!()` sites (missing "enc", line 583, and the `None`
encrypted-key arm inside the `is_direct` branch, line 612) are crashes.
The final branch keeps the source's condition as written: the unwrap path
runs when the algorithm IS the direct one. -/
def decrypt (B : Backend) (d : Decrypter) (header : JweHeader)
    (encrypted_key : Option Bytes) (key_len : Nat) : RResult Bytes :=
  match checkPresence d.algorithm encrypted_key with
  | .error msg => .error (.InvalidJweFormat msg)
  | .ok _ =>
  match getHeaderB64 header "apu" "The apu header claim must be string." with
  | .error msg => .error (.InvalidJweFormat msg)
  | .ok apu =>
  match getHeaderB64 header "apv" "The apv header claim must be string." with
  | .error msg => .error (.InvalidJweFormat msg)
  | .ok apv =>
  match validateEpk B d.key_type header with
  | .error msg => .error (.InvalidJweFormat msg)
  | .ok public_key =>
  match B.agree d.private_key public_key with
  | .error msg => .error (.InvalidJweFormat msg)
  | .ok derived_key =>
  match header.content_encryption with
  | none => .crash
  | some enc =>
  let key := concatKdf B.hash derived_key enc apu apv key_len
  if d.algorithm.is_direct then
    match encrypted_key with
    | none => .crash
    | some ek =>
      match aesKwUnwrap B derived_key ek (key_len + 8) with
      | .error msg => .error (.InvalidJweFormat msg)
      | .ok k2 => .ok k2
  else
    .ok key

/-- A fixed stand-in hash with the SHA-256 output size, used to evaluate the
module on concrete inputs (the claims under test depend on lengths and
control flow, not on digest values). -/
def dummyHash : Bytes → Bytes := fun _ => List.replicate 32 0

/-- A concrete backend instance for evaluating the module: agreement yields
a 32-byte shared secret (as P-256 or X25519 would), generation yields the
one-byte coordinate "AA", and the raw wrap/unwrap have the RFC 3394 sizes. -/
def dummyB : Backend where
  hash := dummyHash
  genEc := fun _ => .ok ("AA", "AA", 1)
  genX := fun _ => .ok ("AA", 1)
  loadEcPub := fun _ _ => .ok 7
  loadXPub := fun _ _ => .ok 7
  loadEcPriv := fun _ _ => .ok 9
  loadXPriv := fun _ _ => .ok 9
  agree := fun _ _ => .ok (List.replicate 32 1)
  wrapRaw := fun _ p => List.replicate (p.length + 8) 2
  unwrapRaw := fun _ _ => some (List.replicate 16 9)

/-- The 32-byte shared secret produced by `dummyB.agree`. -/
def zBytes : Bytes := List.replicate 32 1

/-- A header declaring content encryption "A128GCM" and nothing else. -/
def hEnc : JweHeader := ⟨[("enc", JsonValue.str "A128GCM")]⟩

/-- A direct-variant encrypter on P-256. -/
def encDir : Encrypter :=
  { algorithm := .EcdhEs, key_type := .Ec .P256, public_key := 0, key_id := none }

/-- An A128KW-variant encrypter on P-256. -/
def encA128 : Encrypter :=
  { algorithm := .EcdhEsA128Kw, key_type := .Ec .P256, public_key := 0, key_id := none }

/-- A direct-variant decrypter on P-256. -/
def decDir : Decrypter :=
  { algorithm := .EcdhEs, key_type := .Ec .P256, private_key := 3, key_id := none }

/-- An A128KW-variant decrypter on P-256. -/
def decA128 : Decrypter :=
  { algorithm := .EcdhEsA128Kw, key_type := .Ec .P256, private_key := 3, key_id := none }

/-- The "epk" object `encrypt` writes for the dummy backend's P-256 key. -/
def epkObjP256 : List (String × JsonValue) :=
  [("kty", JsonValue.str "EC"), ("crv", JsonValue.str "P-256"),
   ("x", JsonValue.str "AA"), ("y", JsonValue.str "AA")]

/-- A valid decryption header: content encryption and a matching "epk". -/
def hDec : JweHeader :=
  ⟨[("enc", JsonValue.str "A128GCM"), ("epk", JsonValue.obj epkObjP256)]⟩

/-- The header produced by direct-variant `encrypt` from `hEnc`. -/
def hAfterDir : JweHeader :=
  ⟨[("epk", JsonValue.obj epkObjP256), ("alg", JsonValue.str "ECDH-ES"),
    ("enc", JsonValue.str "A128GCM")]⟩

/-- The header produced by A128KW-variant `encrypt` from `hEnc`. -/
def hAfterA128 : JweHeader :=
  ⟨[("epk", JsonValue.obj epkObjP256), ("alg", JsonValue.str "ECDH-ES+A128KW"),
    ("enc", JsonValue.str "A128GCM")]⟩

/-- A decryption header whose "epk" lacks the "y" coordinate. -/
def hDecNoY : JweHeader :=
  ⟨[("enc", JsonValue.str "A128GCM"),
    ("epk", JsonValue.obj [("kty", JsonValue.str "EC"), ("crv", JsonValue.str "P-256"),
                           ("x", JsonValue.str "AA")])]⟩

/-- A header whose "epk" declares kty "OKP", mismatching an EC decrypter. -/
def hEpkBadKty : JweHeader :=
  ⟨[("epk", JsonValue.obj [("kty", JsonValue.str "OKP")])]⟩

/-- A Jwk whose declared key operations lack "deriveKey". -/
def jwkNoDerive : Jwk :=
  ⟨[("kty", JsonValue.str "EC"), ("key_ops", JsonValue.arr [JsonValue.str "encrypt"])]⟩

/-- Helper: the length of the Concat-KDF accumulator is 32 bytes per round
when the hash has the SHA-256 output size. -/
theorem foldlAppendLength (g : Nat → Bytes) (hl : ∀ i, (g i).length = 32) :
    ∀ (l : List Nat) (acc : Bytes),
      (l.foldl (fun a i => a ++ g i) acc).length = acc.length + 32 * l.length := by
  intro l
  induction l with
  | nil => intro acc; simp
  | cons x xs ih =>
    intro acc
    simp only [List.foldl_cons, ih, List.length_append, hl, List.length_cons]
    ring

/-- Helper: for any hash of SHA-256 output size, the Concat KDF as
implemented returns `(ceiling key_len 32 - 1) * 32` bytes — the half-open
loop runs one round short of the number needed to cover `key_len`. -/
theorem concatKdf_length (hash : Bytes → Bytes) (hl : ∀ m, (hash m).length = 32)
    (Z : Bytes) (enc : String) (apu apv : Option Bytes) (key_len : Nat) :
    (concatKdf hash Z enc apu apv key_len).length = (ceiling key_len 32 - 1) * 32 := by
  have hraw : (concatKdfRaw hash Z enc apu apv key_len).length
      = (ceiling key_len 32 - 1) * 32 := by
    unfold concatKdfRaw
    rw [foldlAppendLength (kdfRound hash Z enc apu apv key_len) (fun i => hl _)]
    simp [List.length_range']
    ring
  have hle : (ceiling key_len 32 - 1) * 32 ≤ key_len := by
    unfold ceiling
    omega
  unfold concatKdf
  split
  · rw [List.length_take, hraw]
    omega
  · exact hraw

/-- C2: the claim says the Concat KDF runs hash rounds until the accumulator
holds at least `keyLen` bytes and returns exactly `keyLen` bytes.  The code
does not: the half-open loop `for i in 1..ceiling(key_len, 32)` runs one
round short, so the output has length `(ceiling keyLen 32 - 1) * 32` — 0
bytes for `keyLen` 16, 24 and 32, and 32 bytes for `keyLen` 50. -/
theorem c2_concat_kdf_output_length :
    (concatKdf dummyHash zBytes "A128GCM" none none 16).length = 0
    ∧ (concatKdf dummyHash zBytes "A128GCM" none none 24).length = 0
    ∧ (concatKdf dummyHash zBytes "A128GCM" none none 32).length = 0
    ∧ (concatKdf dummyHash zBytes "A128GCM" none none 50).length = 32 := by
  exact ⟨rfl, rfl, rfl, rfl⟩

/-- C1: the claim says `decrypt` applied to the output of `encrypt` returns
the exact `keyLen`-byte key for every variant.  For the direct variant on
P-256 with `keyLen = 16` and apu/apv absent, `encrypt` already returns a
0-byte content key (the KDF round bug), and `decrypt` on the produced
header panics: the inverted guard `if self.algorithm.is_direct()` sends the
direct variant into the unwrap branch, whose `None` arm is
`unreachable!()`. -/
theorem c1_roundtrip_direct_panics :
    encrypt dummyB encDir hEnc 16 = RResult.ok (hAfterDir, [], none)
    ∧ decrypt dummyB decDir hAfterDir none 16 = RResult.crash := by
  exact ⟨rfl, rfl⟩

/-- C3: the claim says a wrapping-variant `decrypt` AES-unwraps the supplied
wrapped key and returns the recovered `keyLen`-byte key.  The code's
inverted guard skips the unwrap entirely for wrapping variants: with a valid
header, a 24-byte wrapped key and `keyLen = 16`, `decrypt` returns the
(0-byte, per the KDF bug) Concat-KDF output; the backend unwrap, had it run,
would have produced sixteen 9-bytes. -/
theorem c3_decrypt_kw_skips_unwrap :
    decrypt dummyB decA128 hDec (some (List.replicate 24 7)) 16 = RResult.ok [] := by
  exact rfl

/-- C4: the claim says a wrapping-variant `encrypt` wraps a separately
generated `keyLen`-byte content key under the Concat-KDF output, producing
`keyLen + 8` wrapped bytes.  The code instead wraps the Concat-KDF output
itself (32 bytes for `keyLen = 50`, per the KDF bug) using the raw ECDH
shared secret as the AES key, so the wrapped key has 40 bytes, not 58. -/
theorem c4_encrypt_kw_wrapped_key :
    encrypt dummyB encA128 hEnc 50
      = RResult.ok (hAfterA128, List.replicate 32 0, some (List.replicate 40 2))
    ∧ (List.replicate 40 2).length ≠ 50 + 8 := by
  exact ⟨rfl, by decide⟩

/-- C5: the claim says a direct-variant `decrypt` with a valid header and no
wrapped key returns the Concat-KDF output.  Because the unwrap guard is
inverted, the direct variant enters the unwrap branch, where the absent
wrapped key hits `unreachable!()`: the call panics instead of returning. -/
theorem c5_decrypt_direct_panics :
    decrypt dummyB decDir hDec none 16 = RResult.crash := by
  exact rfl

/-- C9: the claim says every "epk" validation failure names the actual
offending field.  For a named-curve decrypter and an "epk" lacking the "y"
coordinate, the error message reads "The x parameter in epk header claim is
required." — it names x, not the offending y (copy-pasted messages at
source lines 538-546). -/
theorem c9_missing_y_error_names_x :
    decrypt dummyB decA128 hDecNoY (some (List.replicate 24 7)) 16
      = RResult.error (.InvalidJweFormat "The x parameter in epk header claim is required.") := by
  exact rfl

/-- C10: `set_key_id` on an encrypter or decrypter changes only the
`key_id` field; the algorithm variant, the key family and the key handle
are unchanged, and the `key_id` field receives the argument. -/
theorem c10_set_key_id_frame (e : Encrypter) (d : Decrypter) (k k2 : Option String) :
    (e.set_key_id k).algorithm = e.algorithm
    ∧ (e.set_key_id k).key_type = e.key_type
    ∧ (e.set_key_id k).public_key = e.public_key
    ∧ (e.set_key_id k).key_id = k
    ∧ (d.set_key_id k2).algorithm = d.algorithm
    ∧ (d.set_key_id k2).key_type = d.key_type
    ∧ (d.set_key_id k2).private_key = d.private_key
    ∧ (d.set_key_id k2).key_id = k2 := by
  cases k <;> cases k2 <;>
    exact ⟨rfl, rfl, rfl, rfl, rfl, rfl, rfl, rfl⟩

/-- C6: a wrapped-key argument inconsistent with the algorithm variant is
rejected first: a supplied wrapped key under the direct variant, or an
absent one under a wrapping variant, yields the corresponding
`InvalidJweFormat` error for EVERY backend and EVERY header — the result
does not depend on any cryptographic operation or header content, so no
agreement, KDF or unwrap can have run. -/
theorem c6_presence_checked_first (B : Backend) (d : Decrypter) (h : JweHeader)
    (klen : Nat) :
    (∀ w : Bytes, d.algorithm.is_direct = true →
      decrypt B d h (some w) klen
        = RResult.error (.InvalidJweFormat "The encrypted_key must not exist."))
    ∧ (d.algorithm.is_direct = false →
      decrypt B d h none klen
        = RResult.error (.InvalidJweFormat "A encrypted_key is required.")) := by
  constructor
  · intro w hd
    simp [decrypt, checkPresence, hd]
  · intro hd
    simp [decrypt, checkPresence, hd]

/-- C6 witness: the direct decrypter rejects a supplied wrapped key and the
wrapping decrypter rejects an absent one, at concrete inputs. -/
theorem c6_presence_witness :
    decDir.algorithm.is_direct = true
    ∧ decrypt dummyB decDir hEnc (some [1]) 16
        = RResult.error (.InvalidJweFormat "The encrypted_key must not exist.")
    ∧ decA128.algorithm.is_direct = false
    ∧ decrypt dummyB decA128 hEnc none 16
        = RResult.error (.InvalidJweFormat "A encrypted_key is required.") :=
  ⟨rfl, (c6_presence_checked_first dummyB decDir hEnc 16).1 [1] rfl, rfl,
    (c6_presence_checked_first dummyB decA128 hEnc 16).2 rfl⟩

/-- Helper for C7: the ops/alg half of the shared construction checks fails
whenever the deriveKey membership test fails or "alg" is present and differs
from the variant's canonical name. -/
theorem jwkOpsAlgChecks_err (alg : EcdhEsJweAlgorithm) (jwk : Jwk)
    (h : jwk.is_for_key_operation "deriveKey" = false
       ∨ (∃ a, jwk.algorithm = some a ∧ a ≠ alg.name)) :
    ∃ e, jwkCommonChecks.jwkOpsAlgChecks alg jwk = .error e := by
  unfold jwkCommonChecks.jwkOpsAlgChecks
  rcases h with hop | ⟨a, ha, hne⟩
  · rw [hop]
    exact ⟨_, rfl⟩
  · by_cases hop : jwk.is_for_key_operation "deriveKey" = true
    · rw [hop, if_pos rfl, ha]
      simp only [if_neg hne]
      exact ⟨_, rfl⟩
    · rw [Bool.not_eq_true] at hop
      rw [hop]
      exact ⟨_, rfl⟩

/-- Helper for C7: the shared construction checks (kty, use, key_ops, alg)
fail whenever the deriveKey membership test fails, or "use" is present and
differs from "enc", or "alg" is present and differs from the variant's
canonical name. -/
theorem jwkCommonChecks_err (alg : EcdhEsJweAlgorithm) (jwk : Jwk)
    (h : jwk.is_for_key_operation "deriveKey" = false
       ∨ (∃ u, jwk.key_use = some u ∧ u ≠ "enc")
       ∨ (∃ a, jwk.algorithm = some a ∧ a ≠ alg.name)) :
    ∃ e, jwkCommonChecks alg jwk = .error e := by
  unfold jwkCommonChecks
  by_cases hk : jwk.key_type = "EC" ∨ jwk.key_type = "OKP"
  · rw [if_pos hk]
    rcases hu : jwk.key_use with _ | u
    · apply jwkOpsAlgChecks_err
      rcases h with hop | ⟨u2, hu2, _⟩ | halg
      · exact Or.inl hop
      · rw [hu] at hu2
        cases hu2
      · exact Or.inr halg
    · by_cases hue : u = "enc"
      · simp only [if_pos hue]
        apply jwkOpsAlgChecks_err
        rcases h with hop | ⟨u2, hu2, hne⟩ | halg
        · exact Or.inl hop
        · rw [hu] at hu2
          injection hu2 with he
          exact absurd (he ▸ hue) hne
        · exact Or.inr halg
      · simp only [if_neg hue]
        exact ⟨_, rfl⟩
  · rw [if_neg hk]
    exact ⟨_, rfl⟩

/-- C7: `encrypter_from_jwk` and `decrypter_from_jwk` fail with an
`InvalidKeyFormat` error at construction time whenever the key's declared
operations fail the deriveKey membership test, or its "use" parameter is
present and differs from "enc", or its "alg" parameter is present and
differs from the variant's canonical name. -/
theorem c7_construction_rejects (B : Backend) (alg : EcdhEsJweAlgorithm) (jwk : Jwk)
    (h : jwk.is_for_key_operation "deriveKey" = false
       ∨ (∃ u, jwk.key_use = some u ∧ u ≠ "enc")
       ∨ (∃ a, jwk.algorithm = some a ∧ a ≠ alg.name)) :
    (∃ e, encrypter_from_jwk B alg jwk = .error (.InvalidKeyFormat e))
    ∧ (∃ e, decrypter_from_jwk B alg jwk = .error (.InvalidKeyFormat e)) := by
  obtain ⟨e, he⟩ := jwkCommonChecks_err alg jwk h
  constructor
  · exact ⟨e, by simp [encrypter_from_jwk, encrypterFromJwkInner, he]⟩
  · exact ⟨e, by simp [decrypter_from_jwk, decrypterFromJwkInner, he]⟩

/-- C7 witness: a Jwk whose declared key operations lack "deriveKey" is
rejected by both constructors for the direct variant. -/
theorem c7_construction_witness :
    jwkNoDerive.is_for_key_operation "deriveKey" = false
    ∧ ((∃ e, encrypter_from_jwk dummyB .EcdhEs jwkNoDerive = .error (.InvalidKeyFormat e))
       ∧ (∃ e, decrypter_from_jwk dummyB .EcdhEs jwkNoDerive = .error (.InvalidKeyFormat e))) :=
  ⟨rfl, c7_construction_rejects dummyB .EcdhEs jwkNoDerive (Or.inl rfl)⟩

/-- Helper for C8: when the "epk" object's "kty" differs from the
decrypter's family discriminator or its "crv" differs from the configured
curve name, the epk validation fails with a message that is the same for
every backend — none of the backend's operations is consulted. -/
theorem validateEpk_mismatch (kt : EcdhEsKeyType) (h : JweHeader)
    (m : List (String × JsonValue))
    (hepk : h.claim "epk" = some (JsonValue.obj m))
    (hmis : (∃ v, jsonLookup m "kty" = some (JsonValue.str v) ∧ v ≠ kt.key_type)
          ∨ (∃ v, jsonLookup m "crv" = some (JsonValue.str v) ∧ v ≠ kt.curve_name)) :
    ∃ msg, ∀ B : Backend, validateEpk B kt h = .error msg := by
  cases hk : jsonLookup m "kty" with
  | none =>
    exact ⟨"The kty parameter in epk header claim is required.",
      fun B => by simp [validateEpk, hepk, hk]⟩
  | some v =>
    cases v with
    | str s =>
      by_cases hs : s = kt.key_type
      · rcases hmis with ⟨v2, hv2, hne⟩ | ⟨w, hw, hne⟩
        · rw [hk] at hv2
          simp only [Option.some.injEq, JsonValue.str.injEq] at hv2
          exact absurd (hv2 ▸ hs) hne
        · cases hc : jsonLookup m "crv" with
          | none =>
            exact ⟨"The crv parameter in epk header claim is required.",
              fun B => by simp [validateEpk, hepk, hk, hs, hc]⟩
          | some cv =>
            cases cv with
            | str cs =>
              rw [hc] at hw
              simp only [Option.some.injEq, JsonValue.str.injEq] at hw
              have hcs : cs ≠ kt.curve_name := hw ▸ hne
              exact ⟨"The crv parameter in epk header claim is invalid: " ++ cs,
                fun B => by simp [validateEpk, hepk, hk, hs, hc, hcs]⟩
            | obj o =>
              exact ⟨"The crv parameter in epk header claim must be a string.",
                fun B => by simp [validateEpk, hepk, hk, hs, hc]⟩
            | arr a =>
              exact ⟨"The crv parameter in epk header claim must be a string.",
                fun B => by simp [validateEpk, hepk, hk, hs, hc]⟩
            | other =>
              exact ⟨"The crv parameter in epk header claim must be a string.",
                fun B => by simp [validateEpk, hepk, hk, hs, hc]⟩
      · exact ⟨"The kty parameter in epk header claim is invalid: " ++ s,
          fun B => by simp [validateEpk, hepk, hk, hs]⟩
    | obj o =>
      exact ⟨"The kty parameter in epk header claim must be a string.",
        fun B => by simp [validateEpk, hepk, hk]⟩
    | arr a =>
      exact ⟨"The kty parameter in epk header claim must be a string.",
        fun B => by simp [validateEpk, hepk, hk]⟩
    | other =>
      exact ⟨"The kty parameter in epk header claim must be a string.",
        fun B => by simp [validateEpk, hepk, hk]⟩

/-- C8: a decrypt call whose header carries an "epk" object with a "kty"
differing from the decrypter's family discriminator or a "crv" differing
from its configured curve name fails with an `InvalidJweFormat` error, and
the result is the same for every backend — in particular no key agreement
can run on the mismatched curve. -/
theorem c8_epk_mismatch_rejected (d : Decrypter) (h : JweHeader)
    (ek : Option Bytes) (klen : Nat) (m : List (String × JsonValue))
    (hepk : h.claim "epk" = some (JsonValue.obj m))
    (hmis : (∃ v, jsonLookup m "kty" = some (JsonValue.str v) ∧ v ≠ d.key_type.key_type)
          ∨ (∃ v, jsonLookup m "crv" = some (JsonValue.str v) ∧ v ≠ d.key_type.curve_name)) :
    ∃ msg, ∀ B : Backend, decrypt B d h ek klen = RResult.error (.InvalidJweFormat msg) := by
  cases hp : checkPresence d.algorithm ek with
  | error e => exact ⟨e, fun B => by simp [decrypt, hp]⟩
  | ok u =>
    cases hau : getHeaderB64 h "apu" "The apu header claim must be string." with
    | error e => exact ⟨e, fun B => by simp [decrypt, hp, hau]⟩
    | ok apu =>
      cases hav : getHeaderB64 h "apv" "The apv header claim must be string." with
      | error e => exact ⟨e, fun B => by simp [decrypt, hp, hau, hav]⟩
      | ok apv =>
        obtain ⟨msg, hv⟩ := validateEpk_mismatch d.key_type h m hepk hmis
        exact ⟨msg, fun B => by simp [decrypt, hp, hau, hav, hv B]⟩

/-- C8 witness: an EC P-256 decrypter, a header whose "epk" declares kty
"OKP": decrypt fails identically for every backend. -/
theorem c8_epk_mismatch_witness :
    hEpkBadKty.claim "epk"
      = some (JsonValue.obj [("kty", JsonValue.str "OKP")])
    ∧ (∃ msg, ∀ B : Backend,
        decrypt B decDir hEpkBadKty none 16 = RResult.error (.InvalidJweFormat msg)) :=
  ⟨rfl, c8_epk_mismatch_rejected decDir hEpkBadKty none 16
      [("kty", JsonValue.str "OKP")] rfl (Or.inl ⟨"OKP", rfl, by decide⟩)⟩
